import Mathlib

/-!
Verification development for the Product-Grimoire enrichment pipeline
(src/Product-Grimoire.py).  The per-product pipeline
(search_product_page_url → extract_image_url → download_image →
generate_ai_descriptions → record assembly in main) is shallowly embedded:
external services (Google Custom Search, the page fetch + BeautifulSoup
parse, the binary download, the Gemini call, and urllib helpers) are
modelled as an `Oracle` of observable outcomes, and every pure string
manipulation of the source (Python `in`, `str.find`, slicing, `strip`,
`lower`, truthiness) is embedded faithfully.  Each function also returns
the list of external-call events it performs, so claims about "no network
request" or "fallback invoked exactly once" are statable.
-/

namespace ProductGrimoire

/-! ### Python string primitives -/

/-- `listHasPre needle l`: `needle` occurs at the start of `l`
(char-for-char), the building block of Python substring search. -/
def listHasPre : List Char → List Char → Bool
  | [], _ => true
  | _ :: _, [] => false
  | a :: as, b :: bs => a = b && listHasPre as bs

/-- Python `hay.find(needle)` restricted to the found case:
index of the first occurrence of `needle` in `hay`, `none` if absent
(Python returns `-1` there). -/
def pyFindAux (needle : List Char) : List Char → Nat → Option Nat
  | [], i => if listHasPre needle [] then some i else none
  | c :: cs, i =>
    if listHasPre needle (c :: cs) then some i else pyFindAux needle cs (i + 1)

/-- First-occurrence index of `needle` in `hay` (Python `str.find`). -/
def pyFindL (hay needle : List Char) : Option Nat :=
  pyFindAux needle hay 0

/-- Python `needle in hay` on char lists: equivalent to `find` succeeding. -/
def pyInL (needle hay : List Char) : Bool :=
  (pyFindL hay needle).isSome

/-- Python `needle in hay` on strings. -/
def pyIn (needle hay : String) : Bool :=
  pyInL needle.toList hay.toList

/-- Python `str.lower` restricted to ASCII and Latin-1 letters, which is
exactly Unicode simple lowercasing on every character the markers and
URLs of this program use (`Ã` ↦ `ã`, `É` ↦ `é`, ...). -/
def pyCharLower (c : Char) : Char :=
  if 65 ≤ c.toNat ∧ c.toNat ≤ 90 then Char.ofNat (c.toNat + 32)
  else if 0xC0 ≤ c.toNat ∧ c.toNat ≤ 0xDE ∧ c.toNat ≠ 0xD7 then Char.ofNat (c.toNat + 32)
  else c

/-- Python `str.lower` on strings. -/
def pyLower (s : String) : String :=
  String.mk (s.toList.map pyCharLower)

/-- Python whitespace for `str.strip`. -/
def isPySpace (c : Char) : Bool :=
  c = ' ' || c = '\t' || c = '\n' || c = '\r' || c = '\x0b' || c = '\x0c'

/-- Python `str.strip`: drop whitespace from both ends. -/
def pyStrip (l : List Char) : List Char :=
  ((l.dropWhile isPySpace).reverse.dropWhile isPySpace).reverse

/-- Python slice `s[a:b]` for non-negative bounds: clamps, and yields the
empty string when `a > b`. -/
def pySlice (l : List Char) (a b : Nat) : List Char :=
  (l.take b).drop a

/-- Python truthiness of an optional string (`None` and `""` are falsy). -/
def pyTruthy : Option String → Bool
  | none => false
  | some s => s ≠ ""

/-! ### Data model -/

/-- One input row of the spreadsheet (main, lines 255-258).  `quantity` and
`price` are carried through the pipeline unchanged and never computed with,
so their numeric representation is irrelevant to every claim. -/
structure ProductInput where
  sku : String
  name : String
  quantity : Int
  price : Int
  deriving DecidableEq

/-- The per-product output record appended to `processed_products`
(main, lines 274-286).  Field names mirror the Portuguese column names. -/
structure EnrichmentResult where
  nome : String
  descricaoCurta : String
  descricaoLongaHtml : String
  preco : Int
  referenciaSku : String
  peso : Int
  estoque : Int
  urlDaImagem : String
  situacao : String
  caminhoImagemLocal : Option String
  urlOrigemPagina : String
  deriving DecidableEq

/-- The result of `generate_ai_descriptions` (a Python dict with keys
`short` and `long_html`). -/
structure Descriptions where
  short : String
  long_html : String
  deriving DecidableEq

/-- An `<img>` tag as consumed by the Tentativa-3 loop of
`extract_image_url` (lines 127-139): only its `data-zoom`, `data-src` and
`src` attributes are read. -/
structure ImgTag where
  dataZoom : Option String
  dataSrc : Option String
  src : Option String
  deriving DecidableEq

/-- A fetched-and-parsed page, abstracting the three BeautifulSoup queries
`extract_image_url` performs (lines 117-127): `mlZoom` is the `data-zoom`
attribute of the first `img.ui-pdp-gallery__figure__image` tag (`none`
when the tag or the attribute is absent), `ogImage` is the `content`
attribute of the first `meta[property=og:image]` tag (`none` when the tag
or the attribute is absent), `imgs` is `find_all('img')` in document
order. -/
structure Page where
  mlZoom : Option String
  ogImage : Option String
  imgs : List ImgTag
  deriving DecidableEq

/-- External-call events, recorded so that claims about which network and
filesystem operations a code path performs are statable. -/
inductive Event where
  | webSearch : String → Event
  | imgSearch : String → Event
  | fetchPage : String → Event
  | httpGet : String → Event
  | fileWrite : String → Event
  | genCall : String → Event
  deriving DecidableEq

/-- The observable outcomes of every external collaborator.  A `none` (or
`false`) outcome stands for each way the corresponding Python call can
fail, since every failure of these calls is absorbed into exactly that
observable result by the source's `try/except` blocks:
* `search_product_page_url` (lines 62-79) returns a URL or `None`;
* `search_google_images` (lines 81-98) returns a URL or `None`;
* `fetchPage` bundles `requests.get` + `raise_for_status` +
  `BeautifulSoup` (lines 108-114): `none` means any transport/HTTP/parse
  exception, which the enclosing `try` turns into fall-through;
* `py_urljoin` is `urllib.parse.urljoin` (line 134);
* `downloadOk` is whether the streamed download and file write of
  `download_image` (lines 163-176) succeed;
* `urlPathExt` is `os.path.splitext(urlparse(url).path)[1]` (lines 166-167);
* `genResponse` is `model.generate_content(prompt).text` (lines 193-194),
  `none` for any exception from the Gemini call. -/
structure Oracle where
  search_product_page_url : String → Option String
  search_google_images : String → Option String
  fetchPage : String → Option Page
  py_urljoin : String → String → String
  downloadOk : String → Bool
  urlPathExt : String → String
  genResponse : String → Option String

/-! ### extract_image_url (lines 101-155) -/

/-- Blocklisted URL tokens of the Tentativa-3 filter (line 136). -/
def blockedTokens : List String :=
  ["logo", "icon", "avatar", "spinner", ".svg", ".gif", "base64"]

/-- Python `img.get('data-zoom') or img.get('data-src') or img.get('src')`
(line 130): first truthy value, where `None` and `""` are falsy. -/
def pyOrOpt (a b : Option String) : Option String :=
  match a with
  | some s => if s = "" then b else some s
  | none => b

/-- The chained attribute lookup of line 130. -/
def pickSrc (t : ImgTag) : Option String :=
  pyOrOpt (pyOrOpt t.dataZoom t.dataSrc) t.src

/-- The candidate-collection loop of `extract_image_url`
(lines 128-139): skip tags with no (truthy) source attribute, resolve the
source against the page URL with `urljoin`, drop any resolved URL whose
lowercase form contains a blocklisted token, keep the rest in order. -/
def candidateUrls (join : String → String → String) (pageUrl : String) :
    List ImgTag → List String
  | [] => []
  | t :: ts =>
    match pickSrc t with
    | none => candidateUrls join pageUrl ts
    | some s =>
      if s = "" then candidateUrls join pageUrl ts
      else if blockedTokens.any (fun tok => pyIn tok (pyLower (join pageUrl s))) then
        candidateUrls join pageUrl ts
      else
        join pageUrl s :: candidateUrls join pageUrl ts

/-- The two selection loops over `candidate_urls` (lines 141-146): first
candidate containing `zoom` or `large` (case-insensitively), else the
first candidate, else nothing. -/
def pickCandidate (cs : List String) : Option String :=
  match cs.find? (fun u => pyIn "zoom" (pyLower u) || pyIn "large" (pyLower u)) with
  | some u => some u
  | none => cs.head?

/-- `extract_image_url(page_url, product_name, service, cse_id)`
(lines 101-155).  Returns the resolved image URL (or `none`) together
with the external calls performed.  A falsy `page_url` goes straight to
`search_google_images`; a failed fetch/parse, and a page yielding no
candidate, also fall through to `search_google_images`. -/
def extract_image_url (o : Oracle) (page_url : Option String)
    (product_name : String) : Option String × List Event :=
  match page_url with
  | none => (o.search_google_images product_name, [Event.imgSearch product_name])
  | some pu =>
    if pu = "" then
      (o.search_google_images product_name, [Event.imgSearch product_name])
    else
      match o.fetchPage pu with
      | none =>
        (o.search_google_images product_name,
         [Event.fetchPage pu, Event.imgSearch product_name])
      | some page =>
        if pyTruthy page.mlZoom then (page.mlZoom, [Event.fetchPage pu])
        else if pyTruthy page.ogImage then (page.ogImage, [Event.fetchPage pu])
        else
          match pickCandidate (candidateUrls o.py_urljoin pu page.imgs) with
          | some u => (some u, [Event.fetchPage pu])
          | none =>
            (o.search_google_images product_name,
             [Event.fetchPage pu, Event.imgSearch product_name])

/-! ### download_image (lines 158-178) -/

/-- The pass-through guard of `download_image` (line 160) restricted to a
present string: `""` is falsy, and a URL whose lowercase form contains
`"não encontrada"` or `"erro"` is treated as a sentinel. -/
def isSentinelUrl (u : String) : Bool :=
  u = "" || pyIn "não encontrada" (pyLower u) || pyIn "erro" (pyLower u)

/-- `download_image(image_url, sku)` (lines 158-178).  A falsy or
sentinel `image_url` is returned unchanged with no external call;
otherwise the image is downloaded to `imagens_produtos/<sku><ext>`
(extension from the URL path, default `.jpg`), and any failure yields the
fixed failure sentinel `"Erro ao baixar imagem"`. -/
def download_image (o : Oracle) (image_url : Option String) (sku : String) :
    Option String × List Event :=
  match image_url with
  | none => (none, [])
  | some u =>
    if isSentinelUrl u then (some u, [])
    else if o.downloadOk u then
      let ext := if o.urlPathExt u = "" then ".jpg" else o.urlPathExt u
      let filepath := "imagens_produtos/" ++ sku ++ ext
      (some filepath, [Event.httpGet u, Event.fileWrite filepath])
    else
      (some "Erro ao baixar imagem", [Event.httpGet u])

/-! ### generate_ai_descriptions (lines 180-216) -/

/-- The literal short-section marker (line 196). -/
def short_desc_marker : String := "[DESCRIÇÃO CURTA]"

/-- The literal long-section marker (line 197). -/
def long_desc_marker : String := "[DESCRIÇÃO LONGA HTML]"

/-- Parse of the model response (lines 194-208): strip the response, and
when both markers occur, take the slice between the end of the first
short-marker occurrence and the first long-marker occurrence as `short`
and the slice after the end of the first long-marker occurrence as
`long_html`, both stripped; otherwise keep the fixed extraction-error
placeholders.  Python `m in text` is exactly `text.find(m) != -1`, so the
branch is the match on the two `find` results. -/
def parseDescriptions (raw : String) : Descriptions :=
  let t := pyStrip raw.toList
  match pyFindL t short_desc_marker.toList, pyFindL t long_desc_marker.toList with
  | some iS, some iL =>
    { short := String.mk (pyStrip (pySlice t (iS + short_desc_marker.toList.length) iL)),
      long_html := String.mk (pyStrip (pySlice t (iL + long_desc_marker.toList.length) t.length)) }
  | _, _ =>
    { short := "Erro ao extrair descrição curta",
      long_html := "<p>Erro ao extrair descrição longa.</p>" }

/-- `generate_ai_descriptions(product_name)` (lines 180-216).  One Gemini
call; any exception yields the generation-error placeholder pair, a
successful response is parsed by `parseDescriptions`. -/
def generate_ai_descriptions (o : Oracle) (product_name : String) :
    Descriptions × List Event :=
  match o.genResponse product_name with
  | none =>
    ({ short := "Erro ao gerar descrição",
       long_html := "<p>Erro ao gerar descrição.</p>" },
     [Event.genCall product_name])
  | some raw => (parseDescriptions raw, [Event.genCall product_name])

/-! ### The per-product pipeline and the batch loop (main, lines 254-288) -/

/-- The fixed placeholder image URL substituted in the output record
(line 282). -/
def placeholderImageUrl : String :=
  "https://placehold.co/600x400/eee/ccc?text=Imagem+Nao+Encontrada"

/-- Line 282: the record's image-URL field is the resolved URL unless it
contains `"não encontrada"` (exact case, no lowering in the source). -/
def outputImageUrl (image_url : String) : String :=
  if pyIn "não encontrada" image_url then placeholderImageUrl else image_url

/-- The `search_product_page_url(name, service, cse_id)` call of line 263:
its observable outcome is the oracle's answer, and it issues one web
search. -/
def search_product_page_url (o : Oracle) (product_name : String) :
    Option String × List Event :=
  (o.search_product_page_url product_name, [Event.webSearch product_name])

/-- One iteration of the `main` loop (lines 254-286): locate the page,
resolve the image URL, substitute the `"Imagem não encontrada"` sentinel
when nothing was resolved (lines 267-268), download, generate
descriptions, and assemble the output record (lines 274-286).  Returns
the record and the concatenated external-call trace. -/
def processRow (o : Oracle) (p : ProductInput) : EnrichmentResult × List Event :=
  let pp := search_product_page_url o p.name
  let ei := extract_image_url o pp.1 p.name
  let image_url :=
    match ei.1 with
    | none => "Imagem não encontrada"
    | some s => if s = "" then "Imagem não encontrada" else s
  let dl := download_image o (some image_url) p.sku
  let ds := generate_ai_descriptions o p.name
  ({ nome := p.name,
     descricaoCurta := ds.1.short,
     descricaoLongaHtml := ds.1.long_html,
     preco := p.price,
     referenciaSku := p.sku,
     peso := 0,
     estoque := p.quantity,
     urlDaImagem := outputImageUrl image_url,
     situacao := "Ativo",
     caminhoImagemLocal := dl.1,
     urlOrigemPagina :=
       match pp.1 with
       | none => "N/D"
       | some u => if u = "" then "N/D" else u },
   pp.2 ++ ei.2 ++ dl.2 ++ ds.2)

/-- The whole batch loop (lines 254-286): one record appended per input
row, in input order. -/
def processBatch (o : Oracle) (rows : List ProductInput) : List EnrichmentResult :=
  rows.map (fun p => (processRow o p).1)

/-! ### Concrete oracles used to instantiate theorems with hypotheses -/

/-- The all-failing world: every external call fails (search empty, fetch
raises, download raises, Gemini raises). -/
def failOracle : Oracle :=
  { search_product_page_url := fun _ => none,
    search_google_images := fun _ => none,
    fetchPage := fun _ => none,
    py_urljoin := fun _ s => s,
    downloadOk := fun _ => false,
    urlPathExt := fun _ => "",
    genResponse := fun _ => none }

/-- A page whose only image information is an `og:image` whose URL
contains the blocklisted token `logo`. -/
def logoPage : Page :=
  { mlZoom := none, ogImage := some "http://shop.test/logo.png", imgs := [] }

/-- A world whose page fetch always yields `logoPage`. -/
def logoOracle : Oracle :=
  { failOracle with fetchPage := fun _ => some logoPage }

/-- A page with a social-preview meta image, no marketplace zoom element,
and a generic `<img>` tag. -/
def ogPage : Page :=
  { mlZoom := none, ogImage := some "http://shop.test/w.jpg",
    imgs := [{ dataZoom := none, dataSrc := none, src := some "http://shop.test/generic.png" }] }

/-- A world whose page fetch always yields `ogPage`. -/
def ogOracle : Oracle :=
  { failOracle with fetchPage := fun _ => some ogPage }

/-- A page with neither zoom element nor meta image, only one clean
generic `<img>` candidate. -/
def candPage : Page :=
  { mlZoom := none, ogImage := none,
    imgs := [{ dataZoom := none, dataSrc := none, src := some "http://shop.test/photo-large.jpg" }] }

/-- A world whose page fetch always yields `candPage`. -/
def candOracle : Oracle :=
  { failOracle with fetchPage := fun _ => some candPage }

/-- A world whose image fallback search returns the failure marker in
upper case. -/
def upperOracle : Oracle :=
  { failOracle with search_google_images := fun _ => some "IMAGEM NÃO ENCONTRADA" }

/-- A world whose Gemini call answers with a marker-free text. -/
def helloGenOracle : Oracle :=
  { failOracle with genResponse := fun _ => some "hello" }

/-- A world whose Gemini call answers with the long marker before the
short marker. -/
def swappedGenOracle : Oracle :=
  { failOracle with
    genResponse := fun _ => some "[DESCRIÇÃO LONGA HTML]X[DESCRIÇÃO CURTA]" }

/-! ### Helper lemmas -/

/-- Occurring as a prefix is preserved by mapping both lists. -/
theorem listHasPre_map {f : Char → Char} :
    ∀ {n l : List Char}, listHasPre n l = true →
      listHasPre (n.map f) (l.map f) = true := by
  intro n
  induction n with
  | nil => intro l _; rfl
  | cons a as ih =>
    intro l h
    cases l with
    | nil => simp [listHasPre] at h
    | cons b bs =>
      simp only [listHasPre, Bool.and_eq_true, decide_eq_true_eq] at h
      simp only [List.map, listHasPre, Bool.and_eq_true, decide_eq_true_eq]
      exact ⟨congrArg f h.1, ih h.2⟩

/-- A successful substring search stays successful after mapping both the
needle and the haystack. -/
theorem pyFindAux_map {f : Char → Char} (n : List Char) :
    ∀ (l : List Char) (i : Nat), (pyFindAux n l i).isSome = true →
      (pyFindAux (n.map f) (l.map f) i).isSome = true := by
  intro l
  induction l with
  | nil =>
    intro i h
    unfold pyFindAux at h ⊢
    cases hp : listHasPre n [] with
    | false => rw [hp] at h; simp at h
    | true =>
      have hn : n = [] := by
        cases n with
        | nil => rfl
        | cons a as => simp [listHasPre] at hp
      subst hn
      simp [listHasPre]
  | cons c cs ih =>
    intro i h
    unfold pyFindAux at h ⊢
    cases hp2 : listHasPre (n.map f) ((c :: cs).map f) with
    | true =>
      simp only [List.map] at hp2 ⊢
      rw [hp2]
      rfl
    | false =>
      cases hp1 : listHasPre n (c :: cs) with
      | true =>
        have hmapped := listHasPre_map (f := f) hp1
        rw [hmapped] at hp2
        exact Bool.noConfusion hp2
      | false =>
        rw [hp1] at h
        simp only [List.map] at hp2 ⊢
        rw [hp2]
        exact ih (i + 1) h

/-- If a needle that lowercasing leaves unchanged occurs in `u`, it also
occurs in `pyLower u`. -/
theorem pyIn_pyLower {needle u : String}
    (hfix : needle.toList.map pyCharLower = needle.toList)
    (h : pyIn needle u = true) : pyIn needle (pyLower u) = true := by
  unfold pyIn pyInL pyFindL at h ⊢
  have hmap := pyFindAux_map (f := pyCharLower) needle.toList u.toList 0 h
  rw [hfix] at hmap
  exact hmap

/-- Every URL surviving the candidate filter is free of every blocklisted
token. -/
theorem candidateUrls_no_blocked (join : String → String → String)
    (pageUrl : String) (imgs : List ImgTag) :
    ∀ u ∈ candidateUrls join pageUrl imgs,
      ∀ tok ∈ blockedTokens, pyIn tok (pyLower u) = false := by
  induction imgs with
  | nil => intro u hu; simp [candidateUrls] at hu
  | cons t ts ih =>
    intro u hu tok htok
    unfold candidateUrls at hu
    split at hu
    · exact ih u hu tok htok
    · split at hu
      · exact ih u hu tok htok
      · split at hu
        · exact ih u hu tok htok
        · rename_i hany
          rename_i x s heq hs
          rcases List.mem_cons.mp hu with rfl | hmem
          · cases hext : pyIn tok (pyLower (join pageUrl s)) with
            | false => rfl
            | true => exact absurd (List.any_eq_true.mpr ⟨tok, htok, hext⟩) hany
          · exact ih _ hmem tok htok

/-- The candidate-selection loops only ever return a member of the
candidate list. -/
theorem pickCandidate_mem {cs : List String} {u : String}
    (h : pickCandidate cs = some u) : u ∈ cs := by
  unfold pickCandidate at h
  cases hf : cs.find? (fun v => pyIn "zoom" (pyLower v) || pyIn "large" (pyLower v)) with
  | some v =>
    rw [hf] at h
    cases h
    exact List.mem_of_find?_eq_some hf
  | none =>
    rw [hf] at h
    cases cs with
    | nil => simp at h
    | cons a as =>
      simp only [List.head?] at h
      injection h with h2
      subst h2
      exact List.mem_cons_self _ _

/-- The Gemini step emits exactly one generation call whatever the
response was. -/
theorem generate_events (o : Oracle) (product_name : String) :
    (generate_ai_descriptions o product_name).2 = [Event.genCall product_name] := by
  unfold generate_ai_descriptions
  cases o.genResponse product_name <;> rfl

/-! ### Claims -/

/-- Claim C1: for every batch and every behavior of the external services
(including the one where every external call fails), the per-product
pipeline terminates and appends exactly one `EnrichmentResult` per
`ProductInput`, in input order — no row is dropped and no exception
escapes the per-product boundary (the pipeline is a total function). -/
theorem claim_C1_pipeline_totality (o : Oracle) (rows : List ProductInput) :
    (processBatch o rows).length = rows.length ∧
    ∀ i : Nat, (processBatch o rows)[i]? =
      rows[i]?.map (fun p => (processRow o p).1) := by
  constructor
  · simp [processBatch]
  · intro i
    simp [processBatch, List.getElem?_map]

/-- Claim C2, counterexample: `extract_image_url` returns the `og:image`
URL without the blocklist filter, so on a page whose social-preview meta
image is `http://shop.test/logo.png` it returns a URL containing the
blocklisted token `logo`. -/
theorem claim_C2_counterexample :
    (extract_image_url logoOracle (some "http://shop.test/p1") "Widget").1 =
      some "http://shop.test/logo.png" ∧
    "logo" ∈ blockedTokens ∧
    pyIn "logo" (pyLower "http://shop.test/logo.png") = true := by
  refine ⟨rfl, by decide, by decide⟩

/-- Claim C2, amended: the blocklist guarantee holds for the generic
`<img>`-enumeration stage — on a page with no marketplace zoom element
and no social-preview meta image, `extract_image_url` returns either the
text-to-image fallback result or a surviving generic candidate, and every
surviving generic candidate contains no blocklisted token. -/
theorem claim_C2_amended (o : Oracle) (pu product_name : String) (page : Page)
    (hpu : pu ≠ "") (hfetch : o.fetchPage pu = some page)
    (hml : pyTruthy page.mlZoom = false) (hog : pyTruthy page.ogImage = false) :
    (extract_image_url o (some pu) product_name).1 =
      o.search_google_images product_name ∨
    ∃ u, (extract_image_url o (some pu) product_name).1 = some u ∧
      ∀ tok ∈ blockedTokens, pyIn tok (pyLower u) = false := by
  simp only [extract_image_url, if_neg hpu, hfetch, hml, hog,
    Bool.false_eq_true, if_false]
  cases hpc : pickCandidate (candidateUrls o.py_urljoin pu page.imgs) with
  | none => simp [hpc]
  | some u =>
    simp only [hpc]
    right
    exact ⟨u, rfl,
      candidateUrls_no_blocked o.py_urljoin pu page.imgs u (pickCandidate_mem hpc)⟩

/-- Claim C2, amended, witness at a concrete page with one clean generic
candidate. -/
theorem claim_C2_amended_witness :
    (extract_image_url candOracle (some "http://shop.test/p1") "Widget").1 =
      candOracle.search_google_images "Widget" ∨
    ∃ u, (extract_image_url candOracle (some "http://shop.test/p1") "Widget").1 = some u ∧
      ∀ tok ∈ blockedTokens, pyIn tok (pyLower u) = false :=
  claim_C2_amended candOracle "http://shop.test/p1" "Widget" candPage
    (by decide) rfl rfl rfl

/-- Claim C3, counterexample: the pass-through check of `download_image`
is case-insensitive, but the placeholder substitution of the record
assembly (line 282) is case-sensitive — for the upper-case marker string
`"IMAGEM NÃO ENCONTRADA"` the fetch passes it through, yet the record's
image-URL field keeps the marker instead of the placeholder URL. -/
theorem claim_C3_counterexample :
    download_image failOracle (some "IMAGEM NÃO ENCONTRADA") "SKU1" =
      (some "IMAGEM NÃO ENCONTRADA", []) ∧
    (processRow upperOracle
      { sku := "SKU1", name := "widget", quantity := 1, price := 10 }).1.urlDaImagem =
      "IMAGEM NÃO ENCONTRADA" ∧
    "IMAGEM NÃO ENCONTRADA" ≠ placeholderImageUrl := by
  refine ⟨by decide, by decide, by decide⟩

/-- Claim C3, amended: consistency of the two sentinel checks holds for
every string containing the marker `"não encontrada"` in exact lower
case (in particular for the pipeline's own sentinel
`"Imagem não encontrada"`): `download_image` passes it through with no
network call, and the record-assembly substitution replaces it with the
fixed placeholder image URL. -/
theorem claim_C3_amended (o : Oracle) (u sku : String)
    (h : pyIn "não encontrada" u = true) :
    download_image o (some u) sku = (some u, []) ∧
    outputImageUrl u = placeholderImageUrl := by
  constructor
  · have hl : pyIn "não encontrada" (pyLower u) = true :=
      pyIn_pyLower (by decide) h
    simp [download_image, isSentinelUrl, hl]
  · simp [outputImageUrl, h]

/-- Claim C3, amended, witness at the pipeline's own sentinel string. -/
theorem claim_C3_amended_witness :
    download_image failOracle (some "Imagem não encontrada") "SKU1" =
      (some "Imagem não encontrada", []) ∧
    outputImageUrl "Imagem não encontrada" = placeholderImageUrl :=
  claim_C3_amended failOracle "Imagem não encontrada" "SKU1" (by decide)

/-- Claim C4: when the page argument is `None`, `extract_image_url`
performs no page fetch and no parsing, invokes the text-to-image fallback
exactly once, and returns exactly that fallback's result. -/
theorem claim_C4_none_page_fallback (o : Oracle) (product_name : String) :
    extract_image_url o none product_name =
      (o.search_google_images product_name, [Event.imgSearch product_name]) := rfl

/-- Claim C5: on a fetched page with a (truthy) `og:image` content and no
(truthy) marketplace zoom attribute, `extract_image_url` returns the
meta-image URL — never a generic `<img>` candidate and never the
fallback (the event trace holds only the page fetch). -/
theorem claim_C5_og_image_priority (o : Oracle) (pu product_name : String)
    (page : Page) (hpu : pu ≠ "") (hfetch : o.fetchPage pu = some page)
    (hml : pyTruthy page.mlZoom = false) (hog : pyTruthy page.ogImage = true) :
    extract_image_url o (some pu) product_name =
      (page.ogImage, [Event.fetchPage pu]) := by
  simp only [extract_image_url, if_neg hpu, hfetch, hml, hog,
    Bool.false_eq_true, if_false, if_true]

/-- Claim C5, witness at a concrete page carrying both an `og:image` and
a generic `<img>` tag. -/
theorem claim_C5_witness :
    extract_image_url ogOracle (some "http://shop.test/p1") "Widget" =
      (some "http://shop.test/w.jpg", [Event.fetchPage "http://shop.test/p1"]) :=
  claim_C5_og_image_priority ogOracle "http://shop.test/p1" "Widget" ogPage
    (by decide) rfl rfl rfl

/-- Claim C6: for a `None` or sentinel `url` argument, `download_image`
returns the input value unchanged and performs no network request and no
file write (its event trace is empty). -/
theorem claim_C6_sentinel_passthrough (o : Oracle) (url : Option String)
    (sku : String)
    (h : url = none ∨ ∃ u, url = some u ∧ isSentinelUrl u = true) :
    download_image o url sku = (url, []) := by
  rcases h with rfl | ⟨u, rfl, hu⟩
  · rfl
  · simp [download_image, hu]

/-- Claim C6, witness at the download-failure sentinel. -/
theorem claim_C6_witness :
    download_image failOracle (some "Erro ao baixar imagem") "SKU1" =
      (some "Erro ao baixar imagem", []) :=
  claim_C6_sentinel_passthrough failOracle (some "Erro ao baixar imagem") "SKU1"
    (Or.inr ⟨"Erro ao baixar imagem", rfl, by decide⟩)

/-- Claim C7: when the model responds but either section marker is absent
from the (stripped) response, `generate_ai_descriptions` returns both
fixed extraction-error placeholders together — never a partial parse and
never an exception. -/
theorem claim_C7_missing_marker_placeholders (o : Oracle)
    (product_name raw : String)
    (hresp : o.genResponse product_name = some raw)
    (h : ¬(pyInL short_desc_marker.toList (pyStrip raw.toList) = true ∧
           pyInL long_desc_marker.toList (pyStrip raw.toList) = true)) :
    generate_ai_descriptions o product_name =
      ({ short := "Erro ao extrair descrição curta",
         long_html := "<p>Erro ao extrair descrição longa.</p>" },
       [Event.genCall product_name]) := by
  simp only [generate_ai_descriptions, hresp, parseDescriptions]
  cases hS : pyFindL (pyStrip raw.toList) short_desc_marker.toList with
  | some iS =>
    cases hL : pyFindL (pyStrip raw.toList) long_desc_marker.toList with
    | some iL =>
      refine absurd ⟨?_, ?_⟩ h
      · unfold pyInL
        rw [hS]
        rfl
      · unfold pyInL
        rw [hL]
        rfl
    | none => simp only [hS, hL]
  | none =>
    cases hL : pyFindL (pyStrip raw.toList) long_desc_marker.toList with
    | some iL => simp only [hS, hL]
    | none => simp only [hS, hL]

/-- Claim C7, witness at a marker-free response. -/
theorem claim_C7_witness :
    generate_ai_descriptions helloGenOracle "Widget" =
      ({ short := "Erro ao extrair descrição curta",
         long_html := "<p>Erro ao extrair descrição longa.</p>" },
       [Event.genCall "Widget"]) :=
  claim_C7_missing_marker_placeholders helloGenOracle "Widget" "hello" rfl
    (by decide)

/-- Claim C8: end-to-end, when the page search returns nothing and the
text-to-image fallback also returns nothing, the assembled record's
image-URL field is the fixed placeholder URL, its local-image-path field
is the pass-through `"Imagem não encontrada"` sentinel, and the event
trace holds no download request and no file write. -/
theorem claim_C8_total_search_failure (o : Oracle) (p : ProductInput)
    (hs : o.search_product_page_url p.name = none)
    (hi : o.search_google_images p.name = none) :
    (processRow o p).1.urlDaImagem = placeholderImageUrl ∧
    (processRow o p).1.caminhoImagemLocal = some "Imagem não encontrada" ∧
    (processRow o p).2 =
      [Event.webSearch p.name, Event.imgSearch p.name, Event.genCall p.name] ∧
    (∀ u, Event.httpGet u ∉ (processRow o p).2) ∧
    (∀ f, Event.fileWrite f ∉ (processRow o p).2) := by
  have hsent : isSentinelUrl "Imagem não encontrada" = true := by decide
  have hin : pyIn "não encontrada" "Imagem não encontrada" = true := by decide
  have h1 : search_product_page_url o p.name = (none, [Event.webSearch p.name]) := by
    simp [search_product_page_url, hs]
  have h2 : extract_image_url o none p.name = (none, [Event.imgSearch p.name]) := by
    simp [extract_image_url, hi]
  have h3 : download_image o (some "Imagem não encontrada") p.sku =
      (some "Imagem não encontrada", []) := by
    simp [download_image, hsent]
  have h4 := generate_events o p.name
  simp only [processRow, h1, h2, h3, h4]
  refine ⟨?_, ?_, ?_, ?_, ?_⟩ <;> simp [outputImageUrl, hin]

/-- Claim C8, witness in the all-failing world. -/
theorem claim_C8_witness :
    (processRow failOracle
      { sku := "SKU1", name := "Widget", quantity := 1, price := 10 }).1.urlDaImagem =
      placeholderImageUrl ∧
    (processRow failOracle
      { sku := "SKU1", name := "Widget", quantity := 1, price := 10 }).1.caminhoImagemLocal =
      some "Imagem não encontrada" ∧
    (processRow failOracle
      { sku := "SKU1", name := "Widget", quantity := 1, price := 10 }).2 =
      [Event.webSearch "Widget", Event.imgSearch "Widget", Event.genCall "Widget"] ∧
    (∀ u, Event.httpGet u ∉ (processRow failOracle
      { sku := "SKU1", name := "Widget", quantity := 1, price := 10 }).2) ∧
    (∀ f, Event.fileWrite f ∉ (processRow failOracle
      { sku := "SKU1", name := "Widget", quantity := 1, price := 10 }).2) :=
  claim_C8_total_search_failure failOracle
    { sku := "SKU1", name := "Widget", quantity := 1, price := 10 } rfl rfl

/-- Claim C9: any URL whose lowercase form contains `"erro"` or
`"não encontrada"` — including a genuine image URL with `"error"` in its
path — is passed through by `download_image` unchanged, with no download
attempted. -/
theorem claim_C9_genuine_url_passthrough (o : Oracle) (u sku : String)
    (h : pyIn "erro" (pyLower u) = true ∨
         pyIn "não encontrada" (pyLower u) = true) :
    download_image o (some u) sku = (some u, []) := by
  have hsent : isSentinelUrl u = true := by
    unfold isSentinelUrl
    rcases h with h | h <;> rw [h] <;> simp
  simp [download_image, hsent]

/-- Claim C9, witness at a genuine image URL containing `error` in its
path. -/
theorem claim_C9_witness :
    download_image failOracle (some "http://cdn.shop.test/error/product.jpg")
      "SKU1" = (some "http://cdn.shop.test/error/product.jpg", []) :=
  claim_C9_genuine_url_passthrough failOracle
    "http://cdn.shop.test/error/product.jpg" "SKU1" (Or.inl (by decide))

/-- Claim C10: when both markers occur but the first long-marker
occurrence precedes the first short-marker occurrence, the short field is
the empty string (the Python slice with start after end) — not a
placeholder — and the long field is the stripped text after the first
long-marker occurrence. -/
theorem claim_C10_swapped_markers (o : Oracle) (product_name raw : String)
    (iS iL : Nat) (hresp : o.genResponse product_name = some raw)
    (hS : pyFindL (pyStrip raw.toList) short_desc_marker.toList = some iS)
    (hL : pyFindL (pyStrip raw.toList) long_desc_marker.toList = some iL)
    (horder : iL < iS) :
    (generate_ai_descriptions o product_name).1.short = "" ∧
    (generate_ai_descriptions o product_name).1.long_html =
      String.mk (pyStrip (pySlice (pyStrip raw.toList)
        (iL + long_desc_marker.toList.length) (pyStrip raw.toList).length)) := by
  have hempty :
      pySlice (pyStrip raw.toList) (iS + short_desc_marker.toList.length) iL = [] := by
    unfold pySlice
    apply List.drop_eq_nil_of_le
    calc (List.take iL (pyStrip raw.toList)).length
        ≤ iL := by simp [List.length_take]
      _ ≤ iS + short_desc_marker.toList.length :=
          Nat.le_trans (Nat.le_of_lt horder) (Nat.le_add_right _ _)
  simp only [generate_ai_descriptions, hresp, parseDescriptions, hS, hL, hempty]
  refine ⟨?_, ?_⟩ <;> trivial

/-- Claim C10, witness at a response listing the long section first. -/
theorem claim_C10_witness :
    (generate_ai_descriptions swappedGenOracle "Widget").1.short = "" ∧
    (generate_ai_descriptions swappedGenOracle "Widget").1.long_html =
      String.mk (pyStrip (pySlice
        (pyStrip "[DESCRIÇÃO LONGA HTML]X[DESCRIÇÃO CURTA]".toList)
        (0 + long_desc_marker.toList.length)
        (pyStrip "[DESCRIÇÃO LONGA HTML]X[DESCRIÇÃO CURTA]".toList).length)) :=
  claim_C10_swapped_markers swappedGenOracle "Widget"
    "[DESCRIÇÃO LONGA HTML]X[DESCRIÇÃO CURTA]" 23 0 rfl (by decide) (by decide)
    (by decide)

end ProductGrimoire
